import Mathlib

/-!
Shallow embedding of the friendship routers:
  - src/server/api/routers/friendship-request-router.ts (send / accept / decline)
  - the friend router file (getById, userTotalFriendCount)

The relational store is a record of a users table and a friendships table,
each a list of rows.  Row ids of newly inserted friendship rows are drawn from
a counter, mirroring an auto-increment primary key.  Each tRPC procedure is a
function from the store (plus the authenticated caller id and the validated
input) to the resulting store and an outcome; guard middleware failures
(TRPCError BAD_REQUEST / NOT_FOUND) and result-schema validation failures are
the error outcomes.
-/

namespace FriendshipApp

/-- `FriendshipStatusSchema.Values`: the status vocabulary of a friendship
edge. -/
inductive FriendshipStatus : Type
  | requested
  | accepted
  | declined
deriving DecidableEq, Repr

/-- A row of the `users` table (the fields this core reads). -/
structure User : Type where
  id : Nat
  fullName : String
  phoneNumber : String
deriving DecidableEq, Repr

/-- A row of the `friendships` table: `(id, userId, friendUserId, status)`. -/
structure Friendship : Type where
  id : Nat
  userId : Nat
  friendUserId : Nat
  status : FriendshipStatus
deriving DecidableEq, Repr

/-- The relational store: the two tables plus the auto-increment counter for
friendship row ids. -/
structure Db : Type where
  users : List User
  friendships : List Friendship
  nextId : Nat
deriving DecidableEq, Repr

/-- Error outcomes observable from a procedure call: a thrown
TRPCError BAD_REQUEST, a thrown TRPCError NOT_FOUND, or a zod result-schema
parse failure. -/
inductive ApiError : Type
  | badRequest
  | notFound
  | validationFailed
deriving DecidableEq, Repr

/-- `updateTable('friendships').set({status}).where(...)`: set `status := s` on
every row matching the filter `c`. -/
def setStatusWhere (c : Friendship → Bool) (s : FriendshipStatus)
    (l : List Friendship) : List Friendship :=
  l.map (fun f => if c f then { f with status := s } else f)

/-- `send` (friendship-request-router.ts).  The `canSendFriendshipRequest`
guard first requires a `users` row with id `friendUserId` (else
BAD_REQUEST, before any mutation).  The mutation then looks up an existing
edge `(userId, friendUserId)`; if one exists its status is overwritten to
`requested`, otherwise a fresh row is inserted with status `requested`. -/
def send (db : Db) (callerId friendUserId : Nat) : Db × Except ApiError Unit :=
  match db.users.find? (fun u => u.id == friendUserId) with
  | none => (db, .error .badRequest)
  | some _ =>
    match db.friendships.find?
        (fun f => f.userId == callerId && f.friendUserId == friendUserId) with
    | some _ =>
      ({ db with
         friendships := setStatusWhere
           (fun f => f.userId == callerId && f.friendUserId == friendUserId)
           FriendshipStatus.requested db.friendships },
       .ok ())
    | none =>
      ({ db with
         friendships := db.friendships ++
           [{ id := db.nextId, userId := callerId,
              friendUserId := friendUserId,
              status := FriendshipStatus.requested }],
         nextId := db.nextId + 1 },
       .ok ())

/-- The `canAnswerFriendshipRequest` guard lookup: a friendships row with
`userId = friendUserId` (the requester), `friendUserId = callerId` and status
`requested`. -/
def answerGuard (db : Db) (callerId friendUserId : Nat) : Option Friendship :=
  db.friendships.find?
    (fun f => f.userId == friendUserId && f.friendUserId == callerId &&
      f.status == FriendshipStatus.requested)

/-- `accept` (friendship-request-router.ts).  Guarded by
`canAnswerFriendshipRequest` (BAD_REQUEST when no pending request).  Inside the
transaction the code first updates rows `(callerId, friendUserId)` to
`accepted`, then looks up a row `(friendUserId, callerId)`; if found, that row
(matched by id) is updated to `accepted`, otherwise a fresh
`(friendUserId, callerId, accepted)` row is inserted. -/
def accept (db : Db) (callerId friendUserId : Nat) : Db × Except ApiError Unit :=
  match answerGuard db callerId friendUserId with
  | none => (db, .error .badRequest)
  | some _ =>
    match (setStatusWhere
          (fun f => f.userId == callerId && f.friendUserId == friendUserId)
          FriendshipStatus.accepted db.friendships).find?
        (fun f => f.userId == friendUserId && f.friendUserId == callerId) with
    | some existingFriendship =>
      ({ db with
         friendships := setStatusWhere
           (fun f => f.id == existingFriendship.id) FriendshipStatus.accepted
           (setStatusWhere
             (fun f => f.userId == callerId && f.friendUserId == friendUserId)
             FriendshipStatus.accepted db.friendships) },
       .ok ())
    | none =>
      ({ db with
         friendships := setStatusWhere
           (fun f => f.userId == callerId && f.friendUserId == friendUserId)
           FriendshipStatus.accepted db.friendships ++
           [{ id := db.nextId, userId := friendUserId, friendUserId := callerId,
              status := FriendshipStatus.accepted }],
         nextId := db.nextId + 1 },
       .ok ())

/-- `decline` (friendship-request-router.ts).  Guarded by
`canAnswerFriendshipRequest`; the mutation updates rows
`(friendUserId, callerId)` to `declined` and returns `{ success := true }`. -/
def decline (db : Db) (callerId friendUserId : Nat) : Db × Except ApiError Bool :=
  match answerGuard db callerId friendUserId with
  | none => (db, .error .badRequest)
  | some _ =>
    ({ db with
       friendships := setStatusWhere
         (fun f => f.userId == friendUserId && f.friendUserId == callerId)
         FriendshipStatus.declined db.friendships },
     .ok true)

/-- The rows of the self-join in `mutualFriendCountSubquery`:
`friendships f1 INNER JOIN friendships f2 ON f1.friendUserId = f2.friendUserId`
filtered to `f1.userId = userId`, `f2.userId = friendUserId`, both statuses
`accepted`. -/
def mutualJoinRows (db : Db) (userId friendUserId : Nat) :
    List (Friendship × Friendship) :=
  (db.friendships.flatMap (fun f1 => db.friendships.map (fun f2 => (f1, f2)))).filter
    (fun p => p.1.friendUserId == p.2.friendUserId &&
      p.1.userId == userId && p.2.userId == friendUserId &&
      p.1.status == FriendshipStatus.accepted &&
      p.2.status == FriendshipStatus.accepted)

/-- `mutualFriendCountSubquery` used as a scalar subquery: the self-join above
is grouped by `f1.userId` (a single group, since every row has
`f1.userId = userId`) selecting `count(f1.friendUserId)`; a scalar subquery
over it yields NULL (`none`) when the grouped derived table has no row. -/
def mutualFriendCountSubquery (db : Db) (userId friendUserId : Nat) :
    Option Nat :=
  let rows := mutualJoinRows db userId friendUserId
  if rows.isEmpty then none else some rows.length

/-- `userTotalFriendCount`: the derived relation grouping `friendships` rows
with status `accepted` by `userId` with `count(friendUserId)`; embedded as the
map from a user id to its group count (a user id absent from the grouped
relation has count 0). -/
def userTotalFriendCount (db : Db) (userId : Nat) : Nat :=
  db.friendships.countP
    (fun f => f.userId == userId && f.status == FriendshipStatus.accepted)

/-- The row produced by `getById`'s main query for the first matching joined
row.  The select list is exactly `friends.id`, `friends.fullName`,
`friends.phoneNumber` and the `mutualFriendCount` scalar subquery; no
`totalFriendCount` column is selected (the `userTotalFriendCount` helper is
never joined), so that field is absent (`none`).  `mutualFriendCount` is
`none` when the scalar subquery yields NULL. -/
structure FriendRow : Type where
  id : Nat
  fullName : String
  phoneNumber : String
  totalFriendCount : Option Nat
  mutualFriendCount : Option Nat
deriving DecidableEq, Repr

/-- The main query of `getById`: `users as friends` inner-joined with
`friendships` on `friendships.friendUserId = friends.id`, filtered to
`friendships.userId = userId`, `friendships.friendUserId = friendUserId`,
status `accepted`; `executeTakeFirstOrThrow` yields NOT_FOUND when the join is
empty. -/
def getByIdRow (db : Db) (userId friendUserId : Nat) : Option FriendRow :=
  match db.users.find? (fun u => u.id == friendUserId) with
  | none => none
  | some u =>
    match db.friendships.find?
        (fun f => f.userId == userId && f.friendUserId == friendUserId &&
          f.status == FriendshipStatus.accepted) with
    | none => none
    | some _ =>
      some { id := u.id, fullName := u.fullName, phoneNumber := u.phoneNumber,
             totalFriendCount := none,
             mutualFriendCount := mutualFriendCountSubquery db userId friendUserId }

/-- The fully validated result shape of `getById`. -/
structure FriendResult : Type where
  id : Nat
  fullName : String
  phoneNumber : String
  totalFriendCount : Nat
  mutualFriendCount : Nat
deriving DecidableEq, Repr

/-- Modelled from the spec: the zod result schema of `getById`
(`IdSchema`, `NonEmptyStringSchema`, `CountSchema` live in
`utils/server/base-schemas`, which is not part of the given sources).  The
spec calls it a strict schema with all five fields required –
`{ id, fullName, phoneNumber, totalFriendCount, mutualFriendCount }` – with
non-empty name and phone strings and count fields that must be present and
non-null. -/
def parseFriendResult (r : FriendRow) : Except ApiError FriendResult :=
  match r.totalFriendCount, r.mutualFriendCount with
  | some t, some m =>
    if r.fullName.isEmpty || r.phoneNumber.isEmpty then .error .validationFailed
    else .ok { id := r.id, fullName := r.fullName, phoneNumber := r.phoneNumber,
               totalFriendCount := t, mutualFriendCount := m }
  | _, _ => .error .validationFailed

/-- `getById` (friend router): run the main query (NOT_FOUND when no joined
row), then validate the row against the result schema. -/
def getById (db : Db) (userId friendUserId : Nat) : Except ApiError FriendResult :=
  match getByIdRow db userId friendUserId with
  | none => .error .notFound
  | some r => parseFriendResult r

/-- At most one friendships row per ordered pair `(userId, friendUserId)`. -/
def pairOnce (db : Db) : Prop :=
  db.friendships.Pairwise
    (fun f g => f.userId ≠ g.userId ∨ f.friendUserId ≠ g.friendUserId)

/-- The identity of a friendship row apart from its status. -/
def rowKey (f : Friendship) : Nat × Nat × Nat :=
  (f.id, f.userId, f.friendUserId)

instance pairOnceDec (db : Db) : Decidable (pairOnce db) := by
  unfold pairOnce
  infer_instance

/-! Helper lemmas about the update statement. -/

theorem setStatusWhere_length (c : Friendship → Bool) (s : FriendshipStatus)
    (l : List Friendship) : (setStatusWhere c s l).length = l.length := by
  simp [setStatusWhere]

theorem setStatusWhere_map_rowKey (c : Friendship → Bool) (s : FriendshipStatus)
    (l : List Friendship) :
    (setStatusWhere c s l).map rowKey = l.map rowKey := by
  induction l with
  | nil => rfl
  | cons f t ih =>
    simp only [setStatusWhere, List.map_cons] at ih ⊢
    rw [ih]
    by_cases h : c f = true <;> simp [h, rowKey]

theorem pairwise_setStatusWhere (c : Friendship → Bool) (s : FriendshipStatus)
    {l : List Friendship}
    (h : l.Pairwise
      (fun f g => f.userId ≠ g.userId ∨ f.friendUserId ≠ g.friendUserId)) :
    (setStatusWhere c s l).Pairwise
      (fun f g => f.userId ≠ g.userId ∨ f.friendUserId ≠ g.friendUserId) := by
  unfold setStatusWhere
  rw [List.pairwise_map]
  refine h.imp (fun {a b} hab => ?_)
  by_cases ha : c a = true <;> by_cases hb : c b = true <;>
    simpa [ha, hb] using hab

theorem pairwise_append_single {R : Friendship → Friendship → Prop}
    {l : List Friendship} {x : Friendship}
    (hl : l.Pairwise R) (hx : ∀ a ∈ l, R a x) : (l ++ [x]).Pairwise R := by
  rw [List.pairwise_append]
  refine ⟨hl, List.pairwise_singleton R x, ?_⟩
  intro a ha b hb
  rw [List.mem_singleton] at hb
  subst hb
  exact hx a ha

theorem countP_pair_setStatusWhere (c : Friendship → Bool)
    (s : FriendshipStatus) (l : List Friendship) (a b : Nat) :
    (setStatusWhere c s l).countP
        (fun f => f.userId == a && f.friendUserId == b) =
      l.countP (fun f => f.userId == a && f.friendUserId == b) := by
  induction l with
  | nil => rfl
  | cons f t ih =>
    simp only [setStatusWhere, List.map_cons, List.countP_cons] at ih ⊢
    rw [ih]
    by_cases h : c f = true <;> simp [h]

theorem countP_pair_le_one {l : List Friendship} {a b : Nat}
    (h : l.Pairwise
      (fun f g => f.userId ≠ g.userId ∨ f.friendUserId ≠ g.friendUserId)) :
    l.countP (fun f => f.userId == a && f.friendUserId == b) ≤ 1 := by
  induction l with
  | nil => simp
  | cons f t ih =>
    rw [List.pairwise_cons] at h
    rw [List.countP_cons]
    by_cases hp : (f.userId == a && f.friendUserId == b) = true
    · have hfa : f.userId = a ∧ f.friendUserId = b := by
        simpa using hp
      have h0 : t.countP (fun f => f.userId == a && f.friendUserId == b) = 0 := by
        rw [List.countP_eq_zero]
        intro x hx hc
        simp only [Bool.and_eq_true, beq_iff_eq] at hc
        rcases h.1 x hx with hu | hf
        · exact hu (hfa.1.trans hc.1.symm)
        · exact hf (hfa.2.trans hc.2.symm)
      simp [h0, hp]
    · have hp0 : (f.userId == a && f.friendUserId == b) = false := by
        simpa using hp
      simpa [hp0] using ih h.2

/-! Concrete stores used to evaluate the procedures. -/

/-- Two users, no friendships yet. -/
def dbC1 : Db :=
  { users := [{ id := 1, fullName := "Alice", phoneNumber := "111" },
              { id := 2, fullName := "Bob", phoneNumber := "222" }],
    friendships := [], nextId := 1 }

/-- Claim C1: after send(A,B) and a completed accept by B, both directional
edges should be accepted; in fact the code's accept never creates the missing
reciprocal edge.  With A = 1, B = 2: send(1,2) creates (1,2,requested);
accept run by caller 2 with input 1 succeeds, the edge (1,2) ends accepted,
but no row (2,1) exists in the final store. -/
theorem accept_creates_no_reciprocal_edge :
    (accept (send dbC1 1 2).1 2 1).2 = Except.ok () ∧
    ((accept (send dbC1 1 2).1 2 1).1.friendships.any
      (fun f => f.userId == 1 && f.friendUserId == 2 &&
        f.status == FriendshipStatus.accepted)) = true ∧
    ((accept (send dbC1 1 2).1 2 1).1.friendships.all
      (fun f => !(f.userId == 2 && f.friendUserId == 1))) = true :=
  ⟨rfl, rfl, rfl⟩

/-- Users 1 and 2, accepted friends of each other, nothing else. -/
def dbC2 : Db :=
  { users := [{ id := 1, fullName := "Alice", phoneNumber := "111" },
              { id := 2, fullName := "Bob", phoneNumber := "222" }],
    friendships :=
      [{ id := 1, userId := 1, friendUserId := 2,
         status := FriendshipStatus.accepted },
       { id := 2, userId := 2, friendUserId := 1,
         status := FriendshipStatus.accepted }],
    nextId := 3 }

/-- Claim C2: the result of getById should carry all five fields with
totalFriendCount the friend's own accepted count; in fact the main query's
select list never produces totalFriendCount (the userTotalFriendCount relation
is never joined), so the strict result schema rejects the row: getById(1,2)
fails with a validation error even though the precondition holds and the
friend's own accepted count is 1. -/
theorem getById_result_lacks_totalFriendCount :
    (getByIdRow dbC2 1 2).map FriendRow.totalFriendCount = some none ∧
    getById dbC2 1 2 = Except.error ApiError.validationFailed ∧
    userTotalFriendCount dbC2 2 = 1 :=
  ⟨rfl, rfl, rfl⟩

/-- Users 1 and 2, accepted friends of each other, with no common accepted
friend. -/
def dbC3 : Db :=
  { users := [{ id := 1, fullName := "Alice", phoneNumber := "111" },
              { id := 2, fullName := "Bob", phoneNumber := "222" }],
    friendships :=
      [{ id := 1, userId := 1, friendUserId := 2,
         status := FriendshipStatus.accepted },
       { id := 2, userId := 2, friendUserId := 1,
         status := FriendshipStatus.accepted }],
    nextId := 3 }

/-- Claim C3: with no common accepted friend, getById should succeed with
mutualFriendCount = 0; in fact the scalar subquery yields NULL (none) because
the grouped derived table is empty — there is no coalesce — and the call does
not succeed: it fails result-schema validation. -/
theorem getById_mutual_is_null_when_no_mutuals :
    mutualFriendCountSubquery dbC3 1 2 = none ∧
    (getByIdRow dbC3 1 2).map FriendRow.mutualFriendCount = some none ∧
    getById dbC3 1 2 = Except.error ApiError.validationFailed :=
  ⟨rfl, rfl, rfl⟩

/-- The store of the mutual-count example: A = 1 accepted-friends with
X = 3, Y = 4, Z = 5; B = 2 accepted-friends with Y = 4, Z = 5, W = 6; and A, B
accepted-friends of each other. -/
def dbC4 : Db :=
  { users := [{ id := 1, fullName := "Alice", phoneNumber := "111" },
              { id := 2, fullName := "Bob", phoneNumber := "222" },
              { id := 3, fullName := "Xavier", phoneNumber := "333" },
              { id := 4, fullName := "Yves", phoneNumber := "444" },
              { id := 5, fullName := "Zoe", phoneNumber := "555" },
              { id := 6, fullName := "Walt", phoneNumber := "666" }],
    friendships :=
      [{ id := 1, userId := 1, friendUserId := 3,
         status := FriendshipStatus.accepted },
       { id := 2, userId := 1, friendUserId := 4,
         status := FriendshipStatus.accepted },
       { id := 3, userId := 1, friendUserId := 5,
         status := FriendshipStatus.accepted },
       { id := 4, userId := 1, friendUserId := 2,
         status := FriendshipStatus.accepted },
       { id := 5, userId := 2, friendUserId := 4,
         status := FriendshipStatus.accepted },
       { id := 6, userId := 2, friendUserId := 5,
         status := FriendshipStatus.accepted },
       { id := 7, userId := 2, friendUserId := 6,
         status := FriendshipStatus.accepted },
       { id := 8, userId := 2, friendUserId := 1,
         status := FriendshipStatus.accepted }],
    nextId := 9 }

/-- Claim C4: on the spec's example the mutual-count subquery does compute 2
(the distinct common accepted friends 4 and 5), but getById returns no result
at all: the row fails the strict result schema because totalFriendCount is
never selected, so the claimed returned value does not exist. -/
theorem getById_mutual_example_computes_two_but_errors :
    mutualFriendCountSubquery dbC4 1 2 = some 2 ∧
    (getByIdRow dbC4 1 2).map FriendRow.mutualFriendCount = some (some 2) ∧
    getById dbC4 1 2 = Except.error ApiError.validationFailed :=
  ⟨rfl, rfl, rfl⟩

/-- Claim C7: when no user with id targetId exists, send fails with
BAD_REQUEST raised by the canSendFriendshipRequest guard before the mutation,
and the store — in particular the friendships table — is returned
unchanged. -/
theorem send_unknown_target_rejected (db : Db) (callerId targetId : Nat)
    (h : ∀ u ∈ db.users, u.id ≠ targetId) :
    send db callerId targetId = (db, Except.error ApiError.badRequest) := by
  have hf : db.users.find? (fun u => u.id == targetId) = none := by
    rw [List.find?_eq_none]
    intro u hu
    simpa using h u hu
  simp [send, hf]

/-- A single known user; user id 2 does not exist. -/
def dbW7 : Db :=
  { users := [{ id := 1, fullName := "Alice", phoneNumber := "111" }],
    friendships := [], nextId := 1 }

/-- Witness for the unknown-target send rejection at a concrete store. -/
theorem send_unknown_target_rejected_witness :
    (∀ u ∈ dbW7.users, u.id ≠ 2) ∧
    send dbW7 1 2 = (dbW7, Except.error ApiError.badRequest) :=
  ⟨by decide, send_unknown_target_rejected dbW7 1 2 (by decide)⟩

/-- Claim C8: when no accepted edge (callerId, friendUserId) exists — even if
a requested or declined edge exists between the two users — getById fails with
NOT_FOUND. -/
theorem getById_without_accepted_edge_not_found (db : Db)
    (callerId friendUserId : Nat)
    (h : ∀ f ∈ db.friendships,
      ¬(f.userId = callerId ∧ f.friendUserId = friendUserId ∧
        f.status = FriendshipStatus.accepted)) :
    getById db callerId friendUserId = Except.error ApiError.notFound := by
  have hf : db.friendships.find?
      (fun f => f.userId == callerId && f.friendUserId == friendUserId &&
        f.status == FriendshipStatus.accepted) = none := by
    rw [List.find?_eq_none]
    intro f hfm hc
    simp only [Bool.and_eq_true, beq_iff_eq] at hc
    exact h f hfm ⟨hc.1.1, hc.1.2, hc.2⟩
  unfold getById getByIdRow
  cases hu : db.users.find? (fun u => u.id == friendUserId) with
  | none => rfl
  | some u => rw [hf]

/-- Users 1 and 2 with a pending request (1,2) and a declined edge (2,1), but
no accepted edge. -/
def dbW8 : Db :=
  { users := [{ id := 1, fullName := "Alice", phoneNumber := "111" },
              { id := 2, fullName := "Bob", phoneNumber := "222" }],
    friendships :=
      [{ id := 1, userId := 1, friendUserId := 2,
         status := FriendshipStatus.requested },
       { id := 2, userId := 2, friendUserId := 1,
         status := FriendshipStatus.declined }],
    nextId := 3 }

/-- Witness for the unauthorized read at a concrete store where requested and
declined edges exist between the two users but no accepted one. -/
theorem getById_without_accepted_edge_not_found_witness :
    (∀ f ∈ dbW8.friendships,
      ¬(f.userId = 1 ∧ f.friendUserId = 2 ∧
        f.status = FriendshipStatus.accepted)) ∧
    getById dbW8 1 2 = Except.error ApiError.notFound :=
  ⟨by decide, getById_without_accepted_edge_not_found dbW8 1 2 (by decide)⟩

/-- Claim C9: under the canAnswerFriendshipRequest guard, decline succeeds
with a success flag, sets the status of the edge (requesterId, callerId) to
declined, and leaves every other row — in particular any reciprocal edge
(callerId, requesterId) — unchanged: users untouched, friendships count
unchanged, every non-matching row still present as it was. -/
theorem decline_sets_declined_and_frames_rest (db : Db)
    (callerId requesterId : Nat)
    (h : (answerGuard db callerId requesterId).isSome = true) :
    (decline db callerId requesterId).2 = Except.ok true ∧
    (decline db callerId requesterId).1.users = db.users ∧
    (decline db callerId requesterId).1.friendships.length =
      db.friendships.length ∧
    (∀ f ∈ db.friendships, f.userId = requesterId → f.friendUserId = callerId →
      { f with status := FriendshipStatus.declined } ∈
        (decline db callerId requesterId).1.friendships) ∧
    (∀ f ∈ db.friendships,
      ¬(f.userId = requesterId ∧ f.friendUserId = callerId) →
      f ∈ (decline db callerId requesterId).1.friendships) := by
  obtain ⟨g, hg⟩ := Option.isSome_iff_exists.mp h
  simp only [decline, hg]
  refine ⟨trivial, trivial, setStatusWhere_length _ _ _, ?_, ?_⟩
  · intro f hf hfu hff
    unfold setStatusWhere
    rw [List.mem_map]
    exact ⟨f, hf, by simp [hfu, hff]⟩
  · intro f hf hfn
    unfold setStatusWhere
    rw [List.mem_map]
    refine ⟨f, hf, ?_⟩
    have hc : (f.userId == requesterId && f.friendUserId == callerId) = false := by
      rcases Decidable.em (f.userId = requesterId) with hu | hu
      · have hff : f.friendUserId ≠ callerId := fun hcc => hfn ⟨hu, hcc⟩
        simp [hu, hff]
      · simp [hu]
    simp [hc]

/-- Users 1 and 2, with the pending request (1,2) and a pre-existing
reciprocal accepted edge (2,1). -/
def dbW9 : Db :=
  { users := [{ id := 1, fullName := "Alice", phoneNumber := "111" },
              { id := 2, fullName := "Bob", phoneNumber := "222" }],
    friendships :=
      [{ id := 1, userId := 1, friendUserId := 2,
         status := FriendshipStatus.requested },
       { id := 2, userId := 2, friendUserId := 1,
         status := FriendshipStatus.accepted }],
    nextId := 3 }

/-- Witness for the decline frame property: caller 2 declines requester 1 on a
store that also holds a reciprocal accepted edge (2,1). -/
theorem decline_sets_declined_and_frames_rest_witness :
    (answerGuard dbW9 2 1).isSome = true ∧
    ((decline dbW9 2 1).2 = Except.ok true ∧
     (decline dbW9 2 1).1.users = dbW9.users ∧
     (decline dbW9 2 1).1.friendships.length = dbW9.friendships.length ∧
     (∀ f ∈ dbW9.friendships, f.userId = 1 → f.friendUserId = 2 →
       { f with status := FriendshipStatus.declined } ∈
         (decline dbW9 2 1).1.friendships) ∧
     (∀ f ∈ dbW9.friendships, ¬(f.userId = 1 ∧ f.friendUserId = 2) →
       f ∈ (decline dbW9 2 1).1.friendships)) :=
  ⟨by decide, decline_sets_declined_and_frames_rest dbW9 2 1 (by decide)⟩

/-- Claim C6: every operation preserves the at-most-one-row-per-ordered-pair
invariant: updates rewrite statuses in place and inserts happen only when no
row for the ordered pair exists. -/
theorem ops_preserve_one_row_per_pair (db : Db) (a b : Nat)
    (h : pairOnce db) :
    pairOnce (send db a b).1 ∧ pairOnce (accept db a b).1 ∧
    pairOnce (decline db a b).1 := by
  unfold pairOnce at h ⊢
  refine ⟨?_, ?_, ?_⟩
  · unfold send
    cases hu : db.users.find? (fun u => u.id == b) with
    | none => exact h
    | some u =>
      cases hf : db.friendships.find?
          (fun f => f.userId == a && f.friendUserId == b) with
      | some x => exact pairwise_setStatusWhere _ _ h
      | none =>
        refine pairwise_append_single h ?_
        intro y hy
        have hny := List.find?_eq_none.mp hf y hy
        simp only [Bool.and_eq_true, beq_iff_eq, not_and] at hny
        rcases Decidable.em (y.userId = a) with hya | hya
        · exact Or.inr (by simpa using hny hya)
        · exact Or.inl (by simpa using hya)
  · unfold accept
    cases hg : answerGuard db a b with
    | none => exact h
    | some g =>
      cases hf : (setStatusWhere
            (fun f => f.userId == a && f.friendUserId == b)
            FriendshipStatus.accepted db.friendships).find?
          (fun f => f.userId == b && f.friendUserId == a) with
      | some x =>
        exact pairwise_setStatusWhere _ _ (pairwise_setStatusWhere _ _ h)
      | none =>
        refine pairwise_append_single (pairwise_setStatusWhere _ _ h) ?_
        intro y hy
        have hny := List.find?_eq_none.mp hf y hy
        simp only [Bool.and_eq_true, beq_iff_eq, not_and] at hny
        rcases Decidable.em (y.userId = b) with hyb | hyb
        · exact Or.inr (by simpa using hny hyb)
        · exact Or.inl (by simpa using hyb)
  · unfold decline
    cases hg : answerGuard db a b with
    | none => exact h
    | some g => exact pairwise_setStatusWhere _ _ h

/-- Two users with a pending request (2,1), suitable for all three
operations called with caller 1 and input 2. -/
def dbW6 : Db :=
  { users := [{ id := 1, fullName := "Alice", phoneNumber := "111" },
              { id := 2, fullName := "Bob", phoneNumber := "222" }],
    friendships :=
      [{ id := 1, userId := 2, friendUserId := 1,
         status := FriendshipStatus.requested }],
    nextId := 2 }

/-- Witness for the invariant preservation at a concrete store. -/
theorem ops_preserve_one_row_per_pair_witness :
    pairOnce dbW6 ∧
    (pairOnce (send dbW6 1 2).1 ∧ pairOnce (accept dbW6 1 2).1 ∧
     pairOnce (decline dbW6 1 2).1) :=
  ⟨by decide, ops_preserve_one_row_per_pair dbW6 1 2 (by decide)⟩

/-- Claim C10: under the canAnswerFriendshipRequest guard — an edge
(requesterId, callerId) with status requested exists — accept's
reciprocal-existence lookup always finds a row (the first update only rewrites
statuses), so the insert branch is unreachable: accept only updates rows,
keeping every row's id, userId and friendUserId, and the table length. -/
theorem accept_never_inserts_under_guard (db : Db)
    (callerId requesterId : Nat)
    (h : (answerGuard db callerId requesterId).isSome = true) :
    (accept db callerId requesterId).1.friendships.map rowKey =
      db.friendships.map rowKey ∧
    (accept db callerId requesterId).1.friendships.length =
      db.friendships.length := by
  obtain ⟨g, hg⟩ := Option.isSome_iff_exists.mp h
  have hg2 : db.friendships.find?
      (fun f => f.userId == requesterId && f.friendUserId == callerId &&
        f.status == FriendshipStatus.requested) = some g := hg
  have hgm := List.mem_of_find?_eq_some hg2
  have hgp := List.find?_some hg2
  simp only [Bool.and_eq_true, beq_iff_eq] at hgp
  simp only [accept, hg]
  cases hfind : (setStatusWhere
        (fun f => f.userId == callerId && f.friendUserId == requesterId)
        FriendshipStatus.accepted db.friendships).find?
      (fun f => f.userId == requesterId && f.friendUserId == callerId) with
  | none =>
    exfalso
    have hmem : ∃ y ∈ setStatusWhere
        (fun f => f.userId == callerId && f.friendUserId == requesterId)
        FriendshipStatus.accepted db.friendships,
        y.userId = requesterId ∧ y.friendUserId = callerId := by
      refine ⟨if g.userId == callerId && g.friendUserId == requesterId
          then { g with status := FriendshipStatus.accepted } else g,
        List.mem_map_of_mem _ hgm, ?_⟩
      by_cases hcg : (g.userId == callerId && g.friendUserId == requesterId) = true
      · rw [if_pos hcg]
        exact ⟨hgp.1.1, hgp.1.2⟩
      · rw [if_neg hcg]
        exact ⟨hgp.1.1, hgp.1.2⟩
    obtain ⟨y, hy, hy1, hy2⟩ := hmem
    have := List.find?_eq_none.mp hfind y hy
    simp [hy1, hy2] at this
  | some x =>
    constructor
    · rw [setStatusWhere_map_rowKey, setStatusWhere_map_rowKey]
    · rw [setStatusWhere_length, setStatusWhere_length]

/-- Two users with only the pending request (1,2); accepting it must not add
any row according to the code path under the guard. -/
def dbW10 : Db :=
  { users := [{ id := 1, fullName := "Alice", phoneNumber := "111" },
              { id := 2, fullName := "Bob", phoneNumber := "222" }],
    friendships :=
      [{ id := 1, userId := 1, friendUserId := 2,
         status := FriendshipStatus.requested }],
    nextId := 2 }

/-- Witness for accept never inserting: caller 2 accepts requester 1. -/
theorem accept_never_inserts_under_guard_witness :
    (answerGuard dbW10 2 1).isSome = true ∧
    ((accept dbW10 2 1).1.friendships.map rowKey =
      dbW10.friendships.map rowKey ∧
     (accept dbW10 2 1).1.friendships.length =
      dbW10.friendships.length) :=
  ⟨by decide, accept_never_inserts_under_guard dbW10 2 1 (by decide)⟩

/-- Claim C5: on a store with at most one row per ordered pair, when the
target user exists and some edge (callerId, targetId) already exists in any
status, send succeeds, performs an update rather than an insert (the table
length is unchanged), and leaves exactly one edge (callerId, targetId), whose
status is requested. -/
theorem send_overwrites_existing_edge (db : Db) (callerId targetId : Nat)
    (hinv : pairOnce db)
    (huser : (db.users.find? (fun u => u.id == targetId)).isSome = true)
    (hedge : (db.friendships.find?
      (fun f => f.userId == callerId &&
        f.friendUserId == targetId)).isSome = true) :
    (send db callerId targetId).2 = Except.ok () ∧
    (send db callerId targetId).1.friendships.length =
      db.friendships.length ∧
    (send db callerId targetId).1.friendships.countP
      (fun f => f.userId == callerId && f.friendUserId == targetId) = 1 ∧
    (∀ f ∈ (send db callerId targetId).1.friendships,
      f.userId = callerId → f.friendUserId = targetId →
        f.status = FriendshipStatus.requested) := by
  obtain ⟨u, hu⟩ := Option.isSome_iff_exists.mp huser
  obtain ⟨e, he⟩ := Option.isSome_iff_exists.mp hedge
  simp only [send, hu, he]
  refine ⟨trivial, setStatusWhere_length _ _ _, ?_, ?_⟩
  · rw [countP_pair_setStatusWhere]
    have hle : db.friendships.countP
        (fun f => f.userId == callerId && f.friendUserId == targetId) ≤ 1 :=
      countP_pair_le_one hinv
    have hpe := List.find?_some he
    have hme := List.mem_of_find?_eq_some he
    have hpos : 0 < db.friendships.countP
        (fun f => f.userId == callerId && f.friendUserId == targetId) :=
      List.countP_pos_iff.mpr ⟨e, hme, hpe⟩
    omega
  · intro f hf hfu hff
    unfold setStatusWhere at hf
    rw [List.mem_map] at hf
    obtain ⟨x, hx, rfl⟩ := hf
    by_cases hc : (x.userId == callerId && x.friendUserId == targetId) = true
    · simp [hc]
    · rw [if_neg hc] at hfu hff ⊢
      exact absurd (by simp [hfu, hff]) hc

/-- Two users with no friendship rows; the witness drives the
send → decline → send sequence from here. -/
def dbW5 : Db :=
  { users := [{ id := 1, fullName := "Alice", phoneNumber := "111" },
              { id := 2, fullName := "Bob", phoneNumber := "222" }],
    friendships := [], nextId := 1 }

/-- Witness for the send overwrite: after send(1,2) and a decline by user 2,
a second send(1,2) succeeds and leaves exactly one (1,2) row, with status
requested. -/
theorem send_overwrites_existing_edge_witness :
    (pairOnce (decline (send dbW5 1 2).1 2 1).1 ∧
     ((decline (send dbW5 1 2).1 2 1).1.users.find?
        (fun u => u.id == 2)).isSome = true ∧
     ((decline (send dbW5 1 2).1 2 1).1.friendships.find?
        (fun f => f.userId == 1 && f.friendUserId == 2)).isSome = true) ∧
    ((send (decline (send dbW5 1 2).1 2 1).1 1 2).2 = Except.ok () ∧
     (send (decline (send dbW5 1 2).1 2 1).1 1 2).1.friendships.length =
       (decline (send dbW5 1 2).1 2 1).1.friendships.length ∧
     (send (decline (send dbW5 1 2).1 2 1).1 1 2).1.friendships.countP
       (fun f => f.userId == 1 && f.friendUserId == 2) = 1 ∧
     (∀ f ∈ (send (decline (send dbW5 1 2).1 2 1).1 1 2).1.friendships,
       f.userId = 1 → f.friendUserId = 2 →
         f.status = FriendshipStatus.requested)) :=
  ⟨⟨by decide, by decide, by decide⟩,
   send_overwrites_existing_edge (decline (send dbW5 1 2).1 2 1).1 1 2
     (by decide) (by decide) (by decide)⟩

end FriendshipApp
